import Mathlib

/-
Verification development for the GCP Google Business Profile collectors
(daily_impressions.py, keywords_collector.py, location_status_collector.py).

The Python modules are shallowly embedded: JSON payloads become inductive
values, dicts become association lists preserving insertion order, clock
reads become explicit parameters, HTTP calls become function parameters,
the BigQuery warehouse becomes a list of rows, and code paths that raise
exceptions are modelled with Option (none = the exception propagates).
-/

set_option maxHeartbeats 1000000

/-- Association list lookup with string keys, mirroring Python dict access
(first matching key wins; our insertion discipline keeps keys unique). -/
def alookup {α : Type} : List (String × α) → String → Option α
  | [], _ => none
  | (k, v) :: rest, key => if k = key then some v else alookup rest key

/-- A single quote character, used by the Python repr rendering. -/
def squo : String := String.singleton (Char.ofNat 39)

/-- ASCII whitespace, the characters stripped by Python int() parsing. -/
def isWsChar (c : Char) : Bool :=
  c = ' ' || c = Char.ofNat 9 || c = Char.ofNat 10 || c = Char.ofNat 11
    || c = Char.ofNat 12 || c = Char.ofNat 13

/-- Strips whitespace from both ends of a character list. -/
def pyTrimList (l : List Char) : List Char :=
  ((l.dropWhile isWsChar).reverse.dropWhile isWsChar).reverse

/-- Parses a nonempty all-digit character list as a natural number. -/
def digitsToNat? (l : List Char) : Option Nat :=
  if l.isEmpty || !(l.all Char.isDigit) then none
  else some (l.foldl (fun acc c => acc * 10 + (c.toNat - 48)) 0)

/-- The decimal digits of a natural number, least significant first; the
first argument is recursion fuel, always sufficient at n + 1. -/
def natToRevDigits : Nat → Nat → List Char
  | 0, _ => []
  | fuel + 1, n =>
    if n = 0 then [] else Char.ofNat (48 + n % 10) :: natToRevDigits fuel (n / 10)

/-- Decimal rendering of a natural number, as Python str(). -/
def natToStr (n : Nat) : String :=
  if n = 0 then "0" else String.mk (natToRevDigits (n + 1) n).reverse

/-- Decimal rendering of an integer, as Python str(). -/
def intToStr (i : Int) : String :=
  match i with
  | .ofNat n => natToStr n
  | .negSucc n => "-" ++ natToStr (n + 1)

/-- Splits a character list on a separator character; mirrors the Python
split of a string on a one-character separator. -/
def splitOnChar (c : Char) : List Char → List (List Char)
  | [] => [[]]
  | x :: rest =>
    match splitOnChar c rest with
    | [] => [[]]
    | h :: t => if x = c then [] :: h :: t else (x :: h) :: t

/-- JSON-ish Python values as they appear in fetched payloads: strings,
integers, None, and dicts (insertion-ordered association lists). -/
inductive JVal where
  | jstr (s : String)
  | jint (n : Int)
  | jnull
  | jdict (fields : List (String × JVal))

mutual

/-- Python repr of a JSON-ish value: strings quoted, None, dicts rendered
with braces; used to model the str() rendering of nested dicts. -/
def pyRepr : JVal → String
  | .jstr s => squo ++ s ++ squo
  | .jint n => intToStr n
  | .jnull => "None"
  | .jdict fs => "\x7b" ++ pyReprFields fs ++ "\x7d"

/-- Renders the comma-separated field list of a Python dict repr. -/
def pyReprFields : List (String × JVal) → String
  | [] => ""
  | [kv] => squo ++ kv.1 ++ squo ++ ": " ++ pyRepr kv.2
  | kv :: rest => squo ++ kv.1 ++ squo ++ ": " ++ pyRepr kv.2 ++ ", " ++ pyReprFields rest

end

/-- Python str() of a JSON-ish value: like repr except a top-level string
is returned unquoted. -/
def pyStr : JVal → String
  | .jstr s => s
  | v => pyRepr v

/-- Python int() applied to a JSON-ish value. Integers pass through;
strings parse with optional surrounding whitespace and an optional sign;
everything else (None, dicts) raises, modelled as none. -/
def pyInt : JVal → Option Int
  | .jint a => some a
  | .jstr s =>
      match pyTrimList s.data with
      | '+' :: rest => (digitsToNat? rest).map Int.ofNat
      | '-' :: rest => (digitsToNat? rest).map (fun n => -(n : Int))
      | l => (digitsToNat? l).map Int.ofNat
  | _ => none

/-- A Gregorian calendar date (proleptic, year at least 1). -/
structure Date where
  year : Nat
  month : Nat
  day : Nat
deriving DecidableEq, Repr

/-- Gregorian leap year test. -/
def isLeap (y : Nat) : Bool := y % 4 = 0 && (y % 100 != 0 || y % 400 = 0)

/-- Length of a month in a given year. -/
def daysInMonth (y m : Nat) : Nat :=
  if m = 2 then (if isLeap y then 29 else 28)
  else if m = 4 || m = 6 || m = 9 || m = 11 then 30
  else 31

/-- Number of days in all years strictly before year y (year 1 gives 0),
matching the proleptic Gregorian ordinal used by Python datetime. -/
def daysBeforeYear (y : Nat) : Nat :=
  365 * (y - 1) + (y - 1) / 4 - (y - 1) / 100 + (y - 1) / 400

/-- Number of days in the months of year y strictly before month m. -/
def daysBeforeMonth (y : Nat) : Nat → Nat
  | 0 => 0
  | 1 => 0
  | m + 1 => daysBeforeMonth y m + daysInMonth y m

/-- One-based day of year. -/
def dayOfYear (y m d : Nat) : Nat := daysBeforeMonth y m + d

/-- Proleptic Gregorian ordinal: 0001-01-01 has ordinal 1, matching the
toordinal method of Python datetime. -/
def toordinal (y m d : Nat) : Nat := daysBeforeYear y + dayOfYear y m d

/-- Finds the month and one-based day for a zero-based day-of-year index;
the first argument is recursion fuel, 12 always suffices from month 1. -/
def findMonth (y : Nat) : Nat → Nat → Nat → Nat × Nat
  | 0, m, d0 => (m, d0 + 1)
  | fuel + 1, m, d0 =>
    if m < 12 then
      if d0 < daysInMonth y m then (m, d0 + 1)
      else findMonth y fuel (m + 1) (d0 - daysInMonth y m)
    else (12, d0 + 1)

/-- Inverse of toordinal: the date with the given proleptic Gregorian
ordinal, matching the fromordinal method of Python datetime. -/
def fromordinal (n : Nat) : Date :=
  let n0 := n - 1
  let n400 := n0 / 146097
  let d400 := n0 % 146097
  let n100 := min (d400 / 36524) 3
  let d100 := d400 - n100 * 36524
  let n4 := d100 / 1461
  let d4 := d100 % 1461
  let n1 := min (d4 / 365) 3
  let d1 := d4 - n1 * 365
  let y := 400 * n400 + 100 * n100 + 4 * n4 + n1 + 1
  let md := findMonth y 12 1 d1
  ⟨y, md.1, md.2⟩

/-- Zero-pads a natural number to two digits, as the Python format 02d. -/
def pad2 (n : Nat) : String := if n < 10 then "0" ++ natToStr n else natToStr n

/-- Zero-pads a natural number to four digits, as the Python format 04d. -/
def pad4 (n : Nat) : String :=
  if n < 10 then "000" ++ natToStr n
  else if n < 100 then "00" ++ natToStr n
  else if n < 1000 then "0" ++ natToStr n
  else natToStr n

/-- ISO date string YYYY-MM-DD, as the isoformat method of a Python date. -/
def isoDate (d : Date) : String := pad4 d.year ++ "-" ++ pad2 d.month ++ "-" ++ pad2 d.day

/-- Full weekday name as Python strftime %A (C locale), Monday first. -/
def dayName (y m d : Nat) : String :=
  ["Monday", "Tuesday", "Wednesday", "Thursday", "Friday", "Saturday", "Sunday"].getD
    ((toordinal y m d - 1) % 7) ""

/-- Full month name as Python strftime %B (C locale). -/
def monthName (m : Nat) : String :=
  ["January", "February", "March", "April", "May", "June", "July", "August",
   "September", "October", "November", "December"].getD (m - 1) ""

/-- Number of ISO weeks in a year (52 or 53). -/
def isoWeeksInYear (y : Nat) : Nat :=
  let p := fun yy => (yy + yy / 4 - yy / 100 + yy / 400) % 7
  if p y = 4 || p (y - 1) = 3 then 53 else 52

/-- ISO week-of-year number, as index 1 of the isocalendar method of a
Python date. -/
def isoWeek (y m d : Nat) : Nat :=
  let wd := (toordinal y m d - 1) % 7 + 1
  let w := (dayOfYear y m d + 10 - wd) / 7
  if w = 0 then isoWeeksInYear (y - 1)
  else if w > isoWeeksInYear y then 1 else w

/-- Models datetime.strptime with format %Y-%m-%d followed by the date
constructor validation: exactly four year digits, one or two month and day
digits, month 1..12, day valid for the month, year at least 1. -/
def parseDate (s : String) : Option Date :=
  match splitOnChar (Char.ofNat 45) s.data with
  | [ys, ms, ds] =>
    match digitsToNat? ys, digitsToNat? ms, digitsToNat? ds with
    | some y, some m, some d =>
      if ys.length = 4 && (ms.length = 1 || ms.length = 2)
         && (ds.length = 1 || ds.length = 2)
         && 1 ≤ y && 1 ≤ m && m ≤ 12 && 1 ≤ d && d ≤ daysInMonth y m then
        some ⟨y, m, d⟩
      else none
    | _, _, _ => none
  | _ => none

/-- One page of a paginated list response: an optional item list (a page
may lack the item key) and an optional continuation token. The field
items stands for the per-endpoint key (locations in the business
information API, searchKeywordsCounts in the keywords API). -/
structure PageOf (α : Type) where
  items : Option (List α)
  nextPageToken : Option String

/-- The pagination loop shared by all three collectors (get_all_locations
and the loop of get_search_keywords): consume successive responses,
extending the accumulator with each page item list; stop when a response
carries no continuation token; on a transport or HTTP error, stop and
return what was accumulated so far (the except branch breaks the loop). -/
def paginate {α : Type} : List (Except Unit (PageOf α)) → List α
  | [] => []
  | .error _ :: _ => []
  | .ok p :: rest =>
    p.items.getD [] ++ (match p.nextPageToken with
      | none => []
      | some _ => paginate rest)

namespace DailyImpressions

/-- The date object of a dated value in the metrics payload, with integer
year, month and day fields. -/
structure DateObj where
  year : Int
  month : Int
  day : Int

/-- One dated value of a daily metric time series; the value field is
optional (the code reads it with get and default 0). -/
structure DatedValue where
  date : DateObj
  value : Option JVal

/-- The timeSeries object containing the datedValues list. -/
structure TimeSeries where
  datedValues : List DatedValue

/-- One dailyMetricTimeSeries entry: a metric name (read with default
UNKNOWN) and its time series. -/
structure DailySeries where
  dailyMetric : Option String
  timeSeries : TimeSeries

/-- One multiDailyMetricTimeSeries entry. -/
structure MultiSeries where
  dailyMetricTimeSeries : List DailySeries

/-- The full fetchMultiDailyMetricsTimeSeries response payload. -/
structure MetricsResponse where
  multiDailyMetricTimeSeries : List MultiSeries

/-- Python format 02d on an integer: zero-pad only when the rendering
would be shorter than two characters. -/
def pad2i (n : Int) : String :=
  if 0 ≤ n ∧ n < 10 then "0" ++ intToStr n else intToStr n

/-- The date string built inside process_metrics_data_daily: the year
formatted plainly and month and day with the Python format 02d. -/
def dateStr (d : DateObj) : String :=
  intToStr d.year ++ "-" ++ pad2i d.month ++ "-" ++ pad2i d.day

/-- The traversal order of the nested loops of process_metrics_data_daily,
flattened into (metric name, dated value) pairs. -/
def flattenResp (resp : MetricsResponse) : List (String × DatedValue) :=
  resp.multiDailyMetricTimeSeries.flatMap fun ms =>
    ms.dailyMetricTimeSeries.flatMap fun ds =>
      ds.timeSeries.datedValues.map fun dv => (ds.dailyMetric.getD "UNKNOWN", dv)

/-- Python dict assignment on an association list: replace the value of an
existing key in place, else append the new key at the end. -/
def setA (l : List (String × Int)) (m : String) (v : Int) : List (String × Int) :=
  match l with
  | [] => [(m, v)]
  | (k, w) :: rest => if k = m then (k, v) :: rest else (k, w) :: setA rest m v

/-- The daily_data dict of process_metrics_data_daily: date string to
metric dict, insertion ordered. -/
abbrev DD := List (String × List (String × Int))

/-- The two dict updates of the inner loop: ensure the date key exists,
then assign the metric value in its inner dict. -/
def ddInsert (dd : DD) (ds m : String) (v : Int) : DD :=
  match dd with
  | [] => [(ds, [(m, v)])]
  | (k, inner) :: rest =>
    if k = ds then (k, setA inner m v) :: rest
    else (k, inner) :: ddInsert rest ds m v

/-- The raw value of a dated value as read by the code: the value field
with default 0. -/
def rawVal (dv : DatedValue) : JVal := dv.value.getD (.jint 0)

/-- The loop body of process_metrics_data_daily folded over the flattened
payload: parse each value with int() (none models the uncaught ValueError
or TypeError aborting the run) and store it under (date string, metric). -/
def buildDD : List (String × DatedValue) → DD → Option DD
  | [], dd => some dd
  | (m, dv) :: rest, dd =>
    match pyInt (rawVal dv) with
    | none => none
    | some v => buildDD rest (ddInsert dd (dateStr dv.date) m v)

/-- One record of the daily_records output of process_metrics_data_daily:
the date string plus the metric dict merged into the record. -/
structure DailyRecord where
  date : String
  metrics : List (String × Int)
deriving DecidableEq

/-- process_metrics_data_daily: build the per-date metric dict from the
nested payload, then emit one record per date in insertion order. The
none result models an exception from int() propagating to the caller. -/
def process_metrics_data_daily (resp : MetricsResponse) : Option (List DailyRecord) :=
  (buildDD (flattenResp resp) []).map (List.map fun p => ⟨p.1, p.2⟩)

/-- The location fields stamped on every record by the per-location loop
in main, already rendered to strings as main does (title and phone and
website defaults applied, storefrontAddress passed through str). -/
structure LocationInfo where
  location_name : String
  title : String
  phone : String
  website : String
  address : String
  maps_url : String
deriving DecidableEq

/-- A daily record after main has added the location fields. -/
structure LocRecord where
  date : String
  metrics : List (String × Int)
  location_name : String
  title : String
  phone : String
  website : String
  address : String
  maps_url : String
deriving DecidableEq

/-- The enrichment loop of main: copy the location fields onto every
record of one location. -/
def attachLocation (li : LocationInfo) (recs : List DailyRecord) : List LocRecord :=
  recs.map fun r =>
    { date := r.date, metrics := r.metrics, location_name := li.location_name,
      title := li.title, phone := li.phone, website := li.website,
      address := li.address, maps_url := li.maps_url }

/-- record.get(metric, 0) on the metric part of a record. -/
def recGet (metrics : List (String × Int)) (m : String) : Int :=
  (alookup metrics m).getD 0

/-- One BigQuery-ready row of the daily impressions table, with every
column of transform_to_bigquery_rows. -/
structure ImpressionsRow where
  date : String
  day_of_week : String
  week_number : Nat
  month : Nat
  month_name : String
  year : Nat
  location_name : String
  title : String
  phone : String
  website : String
  address : String
  maps_url : String
  impressions_desktop_maps : Int
  impressions_desktop_search : Int
  impressions_mobile_maps : Int
  impressions_mobile_search : Int
  conversations : Int
  direction_requests : Int
  call_clicks : Int
  website_clicks : Int
  bookings : Int
  food_orders : Int
  total_impressions : Int
  total_actions : Int
  data_fetched_at : String
deriving DecidableEq

/-- The row literal of transform_to_bigquery_rows for one record, given
the parsed date and the utcnow isoformat string of the loop body. -/
def mkImpRow (ts : String) (r : LocRecord) (d : Date) : ImpressionsRow :=
  { date := r.date
    day_of_week := dayName d.year d.month d.day
    week_number := isoWeek d.year d.month d.day
    month := d.month
    month_name := monthName d.month
    year := d.year
    location_name := r.location_name
    title := r.title
    phone := r.phone
    website := r.website
    address := r.address
    maps_url := r.maps_url
    impressions_desktop_maps := recGet r.metrics "BUSINESS_IMPRESSIONS_DESKTOP_MAPS"
    impressions_desktop_search := recGet r.metrics "BUSINESS_IMPRESSIONS_DESKTOP_SEARCH"
    impressions_mobile_maps := recGet r.metrics "BUSINESS_IMPRESSIONS_MOBILE_MAPS"
    impressions_mobile_search := recGet r.metrics "BUSINESS_IMPRESSIONS_MOBILE_SEARCH"
    conversations := recGet r.metrics "BUSINESS_CONVERSATIONS"
    direction_requests := recGet r.metrics "BUSINESS_DIRECTION_REQUESTS"
    call_clicks := recGet r.metrics "CALL_CLICKS"
    website_clicks := recGet r.metrics "WEBSITE_CLICKS"
    bookings := recGet r.metrics "BUSINESS_BOOKINGS"
    food_orders := recGet r.metrics "BUSINESS_FOOD_ORDERS"
    total_impressions :=
      recGet r.metrics "BUSINESS_IMPRESSIONS_DESKTOP_MAPS" +
      recGet r.metrics "BUSINESS_IMPRESSIONS_DESKTOP_SEARCH" +
      recGet r.metrics "BUSINESS_IMPRESSIONS_MOBILE_MAPS" +
      recGet r.metrics "BUSINESS_IMPRESSIONS_MOBILE_SEARCH"
    total_actions :=
      recGet r.metrics "WEBSITE_CLICKS" +
      recGet r.metrics "CALL_CLICKS" +
      recGet r.metrics "BUSINESS_DIRECTION_REQUESTS" +
      recGet r.metrics "BUSINESS_CONVERSATIONS"
    data_fetched_at := ts }

/-- transform_to_bigquery_rows of daily_impressions: parse each record
date with strptime (none models the exception aborting the run) and build
one row per record; ts is the utcnow isoformat read, passed explicitly. -/
def transform_to_bigquery_rows (ts : String) : List LocRecord → Option (List ImpressionsRow)
  | [] => some []
  | r :: rest =>
    match parseDate r.date with
    | none => none
    | some d => (transform_to_bigquery_rows ts rest).map (mkImpRow ts r d :: ·)

/-- write_to_bigquery of daily_impressions over a warehouse modelled as a
row list: empty batch is a no-op; otherwise delete every warehouse row
whose date is among the distinct dates of the batch, then append the
batch. -/
def write_to_bigquery (rows wh : List ImpressionsRow) : List ImpressionsRow :=
  match rows with
  | [] => wh
  | _ =>
    wh.filter (fun r => !(decide (r.date ∈ rows.map ImpressionsRow.date))) ++ rows

/-- The ten metric names requested by get_performance_metrics. -/
def trackedMetrics : List String :=
  ["BUSINESS_IMPRESSIONS_DESKTOP_MAPS", "BUSINESS_IMPRESSIONS_DESKTOP_SEARCH",
   "BUSINESS_IMPRESSIONS_MOBILE_MAPS", "BUSINESS_IMPRESSIONS_MOBILE_SEARCH",
   "BUSINESS_CONVERSATIONS", "BUSINESS_DIRECTION_REQUESTS",
   "CALL_CLICKS", "WEBSITE_CLICKS", "BUSINESS_BOOKINGS", "BUSINESS_FOOD_ORDERS"]

/-- The row column holding a given tracked metric. -/
def metricField (r : ImpressionsRow) (m : String) : Int :=
  if m = "BUSINESS_IMPRESSIONS_DESKTOP_MAPS" then r.impressions_desktop_maps
  else if m = "BUSINESS_IMPRESSIONS_DESKTOP_SEARCH" then r.impressions_desktop_search
  else if m = "BUSINESS_IMPRESSIONS_MOBILE_MAPS" then r.impressions_mobile_maps
  else if m = "BUSINESS_IMPRESSIONS_MOBILE_SEARCH" then r.impressions_mobile_search
  else if m = "BUSINESS_CONVERSATIONS" then r.conversations
  else if m = "BUSINESS_DIRECTION_REQUESTS" then r.direction_requests
  else if m = "CALL_CLICKS" then r.call_clicks
  else if m = "WEBSITE_CLICKS" then r.website_clicks
  else if m = "BUSINESS_BOOKINGS" then r.bookings
  else if m = "BUSINESS_FOOD_ORDERS" then r.food_orders
  else 0

/-- The last value the payload reports for a (date string, metric) pair in
traversal order, none when the pair never appears; used to state the
zero-fill property of the normalizer. -/
def reportedFrom (init : Option Int) (l : List (String × DatedValue)) (ds m : String) : Option Int :=
  l.foldl (fun o x => if dateStr x.2.date = ds ∧ x.1 = m then pyInt (rawVal x.2) else o) init

/-- Reported value over the whole payload, starting from nothing. -/
def reported (l : List (String × DatedValue)) (ds m : String) : Option Int :=
  reportedFrom none l ds m

/-- Two-level dict lookup in the daily_data structure. -/
def getDD (dd : DD) (ds m : String) : Option Int :=
  (alookup dd ds).bind fun inner => alookup inner m

end DailyImpressions

namespace KeywordsCollector

/-- extract_keyword_value: a dict resolves to its string field (default
the UNKNOWN sentinel); any non-dict value is passed through str(). -/
def extract_keyword_value (sk : JVal) : JVal :=
  match sk with
  | .jdict fs => (alookup fs "string").getD (.jstr "UNKNOWN")
  | v => .jstr (pyStr v)

/-- extract_impressions: only a dict carrying a value key resolves, via
int() with parse failures caught and turned into 0; any other shape
yields 0. -/
def extract_impressions (iv : JVal) : Int :=
  match iv with
  | .jdict fs =>
    match alookup fs "value" with
    | some w => (pyInt w).getD 0
    | none => 0
  | _ => 0

/-- Python equality of a JSON-ish value against a string literal. -/
def pyEqStr (v : JVal) (s : String) : Bool :=
  match v with
  | .jstr t => t = s
  | _ => false

/-- One keyword record after main has stamped the location fields on it:
the two payload fields as read with get and dict defaults, plus the
location name and title. -/
structure KWRecord where
  searchKeyword : Option JVal
  insightsValue : Option JVal
  location_name : String
  location_title : String

/-- One BigQuery-ready row of the search keywords table. -/
structure KeywordRow where
  collection_date : String
  location_name : String
  location_title : String
  keyword : JVal
  impressions : Int
  months_period : Int
  data_fetched_at : String

/-- The resolved keyword of a record, as computed in the transform loop. -/
def resolvedKeyword (r : KWRecord) : JVal :=
  extract_keyword_value (r.searchKeyword.getD (.jdict []))

/-- The resolved impression count of a record, as computed in the
transform loop. -/
def resolvedImpressions (r : KWRecord) : Int :=
  extract_impressions (r.insightsValue.getD (.jdict []))

/-- transform_to_bigquery_rows of keywords_collector: one row per record
carrying the resolved keyword and count, skipping records whose count is
0 or whose keyword equals the UNKNOWN sentinel. The clock reads are
explicit: collDate is the utcnow date of the loop body and ts the single
utcnow isoformat taken before the loop. -/
def transform_to_bigquery_rows (collDate ts : String) (mb : Int) :
    List KWRecord → List KeywordRow
  | [] => []
  | r :: rest =>
    let keyword := resolvedKeyword r
    let impressions := resolvedImpressions r
    if impressions = 0 ∨ pyEqStr keyword "UNKNOWN" then
      transform_to_bigquery_rows collDate ts mb rest
    else
      { collection_date := collDate, location_name := r.location_name,
        location_title := r.location_title, keyword := keyword,
        impressions := impressions, months_period := mb,
        data_fetched_at := ts } :: transform_to_bigquery_rows collDate ts mb rest

/-- write_to_bigquery of keywords_collector: empty batch is a no-op;
otherwise delete every warehouse row whose collection_date equals the
current utcnow date taken at load time (the today parameter), then append
the batch. Note the delete key comes from the clock, not from the batch. -/
def write_to_bigquery (rows : List KeywordRow) (today : String)
    (wh : List KeywordRow) : List KeywordRow :=
  match rows with
  | [] => wh
  | _ => wh.filter (fun r => !(r.collection_date = today)) ++ rows

end KeywordsCollector

namespace LocationStatusCollector

/-- The metadata object of a location as read by the status collector. -/
structure Metadata where
  hasVoiceOfMerchant : Bool
  mapsUri : Option String
  placeId : Option String
  newReviewUri : Option String
  canDelete : Bool

/-- One location payload as consumed by transform_to_bigquery_rows of the
status collector, with the fields it reads. -/
structure StatusLocation where
  name : Option String
  title : Option String
  primaryPhone : Option String
  websiteUri : Option String
  storefrontAddress : JVal
  metadata : Metadata

/-- The statuses returned by determine_location_status. -/
structure StatusInfo where
  verification_status : String
  publish_status : String
  overall_status : String
  is_verified : Bool
  is_published : Bool
deriving DecidableEq

/-- Python truthiness of an optional string: None and the empty string
are falsy. -/
def pyTruthy (o : Option String) : Bool :=
  match o with
  | none => false
  | some s => !(s = "")

/-- determine_location_status: the two booleans and the fixed decision
table over them, exactly as the if chain of the source (ASCII hyphens). -/
def determine_location_status (md : Metadata) : StatusInfo :=
  let has_voice_of_merchant := md.hasVoiceOfMerchant
  let has_maps_uri := pyTruthy md.mapsUri
  { verification_status := if has_voice_of_merchant then "VERIFIED" else "NOT VERIFIED"
    publish_status := if has_maps_uri then "PUBLISHED" else "NOT PUBLISHED"
    overall_status :=
      if has_voice_of_merchant && has_maps_uri then "ACTIVE - Verified & Published"
      else if has_voice_of_merchant then "CLAIMED - Not Yet Published"
      else if has_maps_uri then "PUBLISHED - Not Claimed"
      else "INACTIVE - Not Claimed/Published"
    is_verified := has_voice_of_merchant
    is_published := has_maps_uri }

/-- The result object of a Places details response. -/
structure PlacesResult where
  rating : Option ℚ
  user_ratings_total : Option Int
  resName : Option String

/-- A Places details response body: its status string and result object
(empty-dict default when absent). -/
structure PlacesResponse where
  status : Option String
  result : PlacesResult

/-- The dict returned by get_rating_from_places_api on success. -/
structure RatingData where
  rating : Option ℚ
  review_count : Int
  resName : Option String

/-- get_rating_from_places_api: None without an API key; None on a
transport or HTTP error (the except branch); None when the response
status is not OK; otherwise the rating dict with the review count
defaulted to 0. The HTTP call is the http function parameter, from place
id to outcome. -/
def get_rating_from_places_api (http : String → Except Unit PlacesResponse)
    (place_id : String) (api_key : Option String) : Option RatingData :=
  if !(pyTruthy api_key) then none
  else
    match http place_id with
    | .error _ => none
    | .ok data =>
      if data.status = some "OK" then
        some { rating := data.result.rating,
               review_count := data.result.user_ratings_total.getD 0,
               resName := data.result.resName }
      else none

/-- A Python datetime value: its date plus the rendered time-of-day part
of its isoformat. -/
structure PyDateTime where
  date : Date
  clock : String

/-- isoformat of a datetime: the date, the letter T, the time part. -/
def pyIso (t : PyDateTime) : String := isoDate t.date ++ "T" ++ t.clock

/-- One BigQuery-ready row of the location status table. -/
structure StatusRow where
  check_date : String
  check_timestamp : String
  title : String
  location_id : String
  phone : String
  website : String
  address : String
  overall_status : String
  verification_status : String
  publish_status : String
  is_verified : Bool
  is_published : Bool
  rating : ℚ
  review_count : Int
  has_rating : Bool
  place_id : String
  maps_uri : String
  new_review_uri : String
  can_delete : Bool

/-- The rating dict resolved for one location inside the transform loop:
the Places lookup runs only when both the place id and the API key are
truthy. -/
def ratingDataOf (http : String → Except Unit PlacesResponse)
    (api_key : Option String) (loc : StatusLocation) : Option RatingData :=
  if pyTruthy loc.metadata.placeId && pyTruthy api_key then
    get_rating_from_places_api http (loc.metadata.placeId.getD "") api_key
  else none

/-- The rating value a row ends up carrying before the 0.0 default: the
rating key of the resolved dict, if any. -/
def resolvedRating (http : String → Except Unit PlacesResponse)
    (api_key : Option String) (loc : StatusLocation) : Option ℚ :=
  (ratingDataOf http api_key loc).bind RatingData.rating

/-- The row literal of the status transform for one location. -/
def mkStatusRow (http : String → Except Unit PlacesResponse)
    (now : PyDateTime) (api_key : Option String) (loc : StatusLocation) : StatusRow :=
  let status_info := determine_location_status loc.metadata
  let rating_data := ratingDataOf http api_key loc
  let rating : Option ℚ := rating_data.bind RatingData.rating
  let review_count : Int :=
    match rating_data with
    | some rd => rd.review_count
    | none => 0
  { check_date := isoDate now.date
    check_timestamp := pyIso now
    title := loc.title.getD "N/A"
    location_id := loc.name.getD "N/A"
    phone := loc.primaryPhone.getD ""
    website := loc.websiteUri.getD ""
    address := pyStr loc.storefrontAddress
    overall_status := status_info.overall_status
    verification_status := status_info.verification_status
    publish_status := status_info.publish_status
    is_verified := status_info.is_verified
    is_published := status_info.is_published
    rating := rating.getD 0
    review_count := review_count
    has_rating := rating.isSome
    place_id := loc.metadata.placeId.getD ""
    maps_uri := loc.metadata.mapsUri.getD ""
    new_review_uri := loc.metadata.newReviewUri.getD ""
    can_delete := loc.metadata.canDelete }

/-- transform_to_bigquery_rows of the status collector: the utcnow read
happens once before the loop (the now parameter), then one row per
location. -/
def transform_to_bigquery_rows (http : String → Except Unit PlacesResponse)
    (now : PyDateTime) (api_key : Option String)
    (locs : List StatusLocation) : List StatusRow :=
  locs.map (mkStatusRow http now api_key)

/-- write_to_bigquery of the status collector: empty batch is a no-op;
otherwise delete every warehouse row whose check_date equals the
check_date of the FIRST batch row, then append the batch. -/
def write_to_bigquery (rows wh : List StatusRow) : List StatusRow :=
  match rows with
  | [] => wh
  | r0 :: _ => wh.filter (fun r => !(r.check_date = r0.check_date)) ++ rows

end LocationStatusCollector

/-- A value of a run summary dict: a string, an integer count, or a
nested dict (the date_range entry). -/
inductive SVal where
  | s (v : String)
  | n (v : Int)
  | d (fields : List (String × SVal))

/-- A run summary, the dict returned by main. -/
abbrev SummaryD := List (String × SVal)

namespace DailyImpressions

/-- One location item of the business information list endpoint, with the
fields main reads; optional fields model dict get with defaults. -/
structure Location where
  locName : String
  title : Option String
  primaryPhone : Option String
  websiteUri : Option String
  storefrontAddress : JVal
  mapsUrl : Option String

/-- get_all_locations of daily_impressions: the shared pagination loop
over the locations key. -/
def get_all_locations (resps : List (Except Unit (PageOf Location))) : List Location :=
  paginate resps

/-- The location fields main stamps on each record of one location. -/
def locationInfoOf (loc : Location) : LocationInfo :=
  { location_name := loc.locName
    title := loc.title.getD "N/A"
    phone := loc.primaryPhone.getD "N/A"
    website := loc.websiteUri.getD "N/A"
    address := pyStr loc.storefrontAddress
    maps_url := loc.mapsUrl.getD "N/A" }

/-- The external world of one impressions run: the paginated location
responses, the per-location metrics fetch (none models a request error,
turning that location into no data), the current date for the date-range
computation, and the utcnow isoformat string stamped on rows. -/
structure ImpWorld where
  locPages : List (Except Unit (PageOf Location))
  metricsOf : String → Option MetricsResponse
  today : Date
  nowIso : String

/-- The per-location collection loop of main: fetch metrics, normalize,
stamp location fields, accumulate; none models an uncaught exception in
process_metrics_data_daily. -/
def collectAll (w : ImpWorld) : List Location → Option (List LocRecord)
  | [] => some []
  | loc :: rest =>
    let recs : Option (List DailyRecord) :=
      match w.metricsOf loc.locName with
      | none => some []
      | some m => process_metrics_data_daily m
    match recs with
    | none => none
    | some rs =>
      (collectAll w rest).map (fun tail => attachLocation (locationInfoOf loc) rs ++ tail)

/-- The full row pipeline of main before loading: collect every location
and transform; none models an uncaught exception (500 path). -/
def impRowsOf (w : ImpWorld) : Option (List ImpressionsRow) :=
  (collectAll w (get_all_locations w.locPages)).bind (transform_to_bigquery_rows w.nowIso)

/-- main of daily_impressions, success and no-locations paths: the date
range is the 90 days ending 3 days before today; none models the
exception path that returns the 500 error. The warehouse write is
modelled separately (write_to_bigquery) and assumed not to fail here. -/
def impMain (w : ImpWorld) : Option (SummaryD × Nat) :=
  let locations := get_all_locations w.locPages
  if locations.length = 0 then
    some ([("status", .s "error"), ("message", .s "No locations found")], 400)
  else
    let end_date := fromordinal (toordinal w.today.year w.today.month w.today.day - 3)
    let start_date := fromordinal (toordinal w.today.year w.today.month w.today.day - 93)
    (impRowsOf w).map fun rows =>
      ([("status", .s "success"),
        ("records_written", .n rows.length),
        ("locations_processed", .n locations.length),
        ("date_range", .d [("start", .s (isoDate start_date)),
                           ("end", .s (isoDate end_date))])], 200)

end DailyImpressions

namespace KeywordsCollector

/-- One raw searchKeywordsCounts item before location stamping. -/
structure KWRaw where
  searchKeyword : Option JVal
  insightsValue : Option JVal

/-- get_search_keywords of keywords_collector: the shared pagination loop
over the searchKeywordsCounts key. -/
def get_search_keywords (resps : List (Except Unit (PageOf KWRaw))) : List KWRaw :=
  paginate resps

/-- The external world of one keywords run: the paginated location
responses, the per-location keyword page responses, the clock reads and
the months-back configuration. -/
structure KwWorld where
  locPages : List (Except Unit (PageOf DailyImpressions.Location))
  kwPagesOf : String → List (Except Unit (PageOf KWRaw))
  collDate : String
  nowIso : String
  monthsBack : Int

/-- The keyword records of one location after main stamps the location
name and title on each. -/
def keywordsOf (w : KwWorld) (loc : DailyImpressions.Location) : List KWRecord :=
  (get_search_keywords (w.kwPagesOf loc.locName)).map fun r =>
    { searchKeyword := r.searchKeyword, insightsValue := r.insightsValue,
      location_name := loc.locName, location_title := loc.title.getD "N/A" }

/-- main of keywords_collector, success and no-locations paths. -/
def kwMain (w : KwWorld) : SummaryD × Nat :=
  let locations := paginate w.locPages
  if locations.length = 0 then
    ([("status", .s "error"), ("message", .s "No locations found")], 400)
  else
    let locations_with_data :=
      (locations.filter (fun loc => !(keywordsOf w loc).isEmpty)).length
    let all_keywords_data := locations.flatMap (keywordsOf w)
    let rows := transform_to_bigquery_rows w.collDate w.nowIso w.monthsBack all_keywords_data
    ([("status", .s "success"),
      ("keywords_written", .n rows.length),
      ("locations_processed", .n locations.length),
      ("locations_with_data", .n locations_with_data),
      ("months_period", .n w.monthsBack)], 200)

end KeywordsCollector


/-- The conditions of claim C7 under which no rating can be resolved for
a location: lookup disabled (falsy API key or place id), transport or
HTTP error, non-OK response status, or rating key absent from an OK
response. -/
def LocationStatusCollector.noRatingCond
    (http : String → Except Unit LocationStatusCollector.PlacesResponse)
    (api_key : Option String) (loc : LocationStatusCollector.StatusLocation) : Prop :=
  LocationStatusCollector.pyTruthy api_key = false
  ∨ LocationStatusCollector.pyTruthy loc.metadata.placeId = false
  ∨ http (loc.metadata.placeId.getD "") = .error ()
  ∨ (∃ resp, http (loc.metadata.placeId.getD "") = .ok resp ∧ ¬ resp.status = some "OK")
  ∨ (∃ resp, http (loc.metadata.placeId.getD "") = .ok resp ∧ resp.result.rating = none)

/-- The number of entities that yielded data in one impressions run: the
locations whose fetched and normalized daily records are nonempty. -/
def impYieldedCount (w : DailyImpressions.ImpWorld) : Nat :=
  ((DailyImpressions.get_all_locations w.locPages).filter (fun loc =>
    !(match w.metricsOf loc.locName with
      | none => []
      | some m => (DailyImpressions.process_metrics_data_daily m).getD []).isEmpty)).length

/-- A concrete location item of the list endpoint. -/
def locW : DailyImpressions.Location :=
  ⟨"locations/1", some "One", none, none, .jdict [], none⟩

/-- A second concrete location item. -/
def locW2 : DailyImpressions.Location :=
  ⟨"locations/2", some "Two", none, none, .jdict [], none⟩

/-- A third concrete location item. -/
def locW3 : DailyImpressions.Location :=
  ⟨"locations/3", none, none, none, .jdict [], none⟩

/-- A concrete raw keyword item. -/
def kwRawW : KeywordsCollector.KWRaw :=
  ⟨some (.jstr "pizza"), some (.jdict [("value", .jint 5)])⟩

/-- A concrete impressions run world: three locations on one page, only
the first yields metrics data (two dates, two rows), run on
2024-04-14. -/
def w9 : DailyImpressions.ImpWorld :=
  { locPages := [.ok ⟨some [locW, locW2, locW3], none⟩],
    metricsOf := fun nm =>
      if nm = "locations/1" then
        some ⟨[⟨[⟨some "WEBSITE_CLICKS",
          ⟨[⟨⟨2024, 4, 1⟩, some (.jint 2)⟩, ⟨⟨2024, 4, 2⟩, some (.jint 3)⟩]⟩⟩]⟩]⟩
      else none,
    today := ⟨2024, 4, 14⟩,
    nowIso := "TS" }

/-- The summary the impressions run w9 returns. -/
def S9 : SummaryD :=
  [("status", .s "success"),
   ("records_written", .n 2),
   ("locations_processed", .n 3),
   ("date_range", .d [("start", .s "2024-01-12"), ("end", .s "2024-04-11")])]

/-- A concrete keywords run world: two locations, only the first yields
one keyword. -/
def kwW9 : KeywordsCollector.KwWorld :=
  { locPages := [.ok ⟨some [locW, locW2], none⟩],
    kwPagesOf := fun nm =>
      if nm = "locations/1" then [.ok ⟨some [kwRawW], none⟩] else [],
    collDate := "2024-01-05",
    nowIso := "TS",
    monthsBack := 3 }

/-- The summary the keywords run kwW9 returns. -/
def Skw : SummaryD :=
  [("status", .s "success"),
   ("keywords_written", .n 1),
   ("locations_processed", .n 2),
   ("locations_with_data", .n 1),
   ("months_period", .n 3)]

/-- A concrete status location: verified, published, no place id. -/
def locX : LocationStatusCollector.StatusLocation :=
  ⟨some "locations/9", some "X", none, none, .jdict [],
   ⟨true, some "maps", none, none, false⟩⟩

/-- An HTTP stub that always fails with a transport error. -/
def httpErr : String → Except Unit LocationStatusCollector.PlacesResponse :=
  fun _ => .error ()

/-- A concrete clock reading for the status collector. -/
def nowX : LocationStatusCollector.PyDateTime := ⟨⟨2024, 1, 5⟩, "12:00:00"⟩

/-- A concrete keyword row collected on 2024-01-01. -/
def kwRowA : KeywordsCollector.KeywordRow :=
  ⟨"2024-01-01", "L", "T", .jstr "pizza", 5, 3, "TS"⟩

/-- A concrete keyword row collected on 2024-01-02. -/
def kwRowB : KeywordsCollector.KeywordRow :=
  ⟨"2024-01-02", "L", "T", .jstr "burger", 2, 3, "TS"⟩

/-- A concrete keyword row collected on 2024-01-05. -/
def kwRowW : KeywordsCollector.KeywordRow :=
  ⟨"2024-01-05", "L", "T", .jstr "pizza", 5, 3, "TS"⟩

/-- A concrete metrics payload whose single value is a non-numeric
string. -/
def respBad : DailyImpressions.MetricsResponse :=
  ⟨[⟨[⟨some "WEBSITE_CLICKS", ⟨[⟨⟨2024, 1, 5⟩, some (.jstr "abc")⟩]⟩⟩]⟩]⟩

/-- A small concrete metrics payload: two metrics, two dates, one value
reported as a numeric string. -/
def respW : DailyImpressions.MetricsResponse :=
  ⟨[⟨[⟨some "WEBSITE_CLICKS",
        ⟨[⟨⟨2024, 1, 5⟩, some (.jint 2)⟩, ⟨⟨2024, 1, 6⟩, some (.jstr "4")⟩]⟩⟩,
      ⟨some "CALL_CLICKS", ⟨[⟨⟨2024, 1, 6⟩, some (.jint 7)⟩]⟩⟩]⟩]⟩

/-- Concrete location fields for the witness payload. -/
def liW : DailyImpressions.LocationInfo :=
  ⟨"locations/1", "Title", "Phone", "Site", "Addr", "Maps"⟩

/-- The normalizer output on the witness payload. -/
def recsW : List DailyImpressions.DailyRecord :=
  (DailyImpressions.process_metrics_data_daily respW).getD []

/-- The transform output on the witness payload. -/
def rowsW : List DailyImpressions.ImpressionsRow :=
  (DailyImpressions.transform_to_bigquery_rows "TS"
    (DailyImpressions.attachLocation liW recsW)).getD []

/-- Association list lookup of a key known to be present, under key
uniqueness. -/
theorem alookup_eq_of_mem {α : Type} (l : List (String × α)) (k : String) (v : α)
    (hnd : (l.map Prod.fst).Nodup) (h : (k, v) ∈ l) : alookup l k = some v := by
  induction l with
  | nil => cases h
  | cons hd tl ih =>
    simp only [List.map_cons, List.nodup_cons] at hnd
    cases h with
    | head => simp [alookup]
    | tail _ hmem =>
      have hk : ¬ hd.1 = k := by
        intro he
        apply hnd.1
        rw [he]
        exact List.mem_map.mpr ⟨(k, v), hmem, rfl⟩
      simp [alookup, hk, ih hnd.2 hmem]

namespace DailyImpressions

/-- Lookup after a Python dict assignment: the assigned key now maps to
the new value, every other key is unchanged. -/
theorem alookup_setA (l : List (String × Int)) (m : String) (v : Int) (m' : String) :
    alookup (setA l m v) m' = if m = m' then some v else alookup l m' := by
  induction l with
  | nil => by_cases h : m = m' <;> simp [setA, alookup, h]
  | cons hd tl ih =>
    obtain ⟨k, w⟩ := hd
    by_cases hkm : k = m
    · subst hkm
      by_cases h : k = m' <;> simp [setA, alookup, h]
    · by_cases h : k = m'
      · subst h
        simp [setA, hkm, alookup, Ne.symm hkm]
      · simp [setA, hkm, alookup, h, ih]

/-- Key set after a Python dict assignment. -/
theorem mem_keys_setA (l : List (String × Int)) (m : String) (v : Int) (a : String) :
    a ∈ (setA l m v).map Prod.fst ↔ a ∈ l.map Prod.fst ∨ a = m := by
  induction l with
  | nil => simp [setA]
  | cons hd tl ih =>
    obtain ⟨k, w⟩ := hd
    by_cases hkm : k = m
    · subst hkm
      simp [setA]
      tauto
    · simp [setA, hkm, ih]
      tauto

/-- Key uniqueness is preserved by a Python dict assignment. -/
theorem nodup_keys_setA (l : List (String × Int)) (m : String) (v : Int)
    (hnd : (l.map Prod.fst).Nodup) : ((setA l m v).map Prod.fst).Nodup := by
  induction l with
  | nil => simp [setA]
  | cons hd tl ih =>
    obtain ⟨k, w⟩ := hd
    simp only [List.map_cons, List.nodup_cons] at hnd
    by_cases hkm : k = m
    · subst hkm
      simpa [setA] using hnd
    · have h3 : k ∉ (setA tl m v).map Prod.fst := by
        rw [mem_keys_setA]
        rintro (hc | hc)
        · exact hnd.1 hc
        · exact hkm hc
      simp [setA, hkm, h3, ih hnd.2]

/-- Two-level lookup after one update of the daily_data dict. -/
theorem getDD_ddInsert (dd : DD) (ds m : String) (v : Int) (ds' m' : String) :
    getDD (ddInsert dd ds m v) ds' m' =
      if ds = ds' ∧ m = m' then some v else getDD dd ds' m' := by
  induction dd with
  | nil =>
    by_cases h1 : ds = ds'
    · subst h1
      by_cases h2 : m = m' <;> simp [ddInsert, getDD, alookup, h2]
    · simp [ddInsert, getDD, alookup, h1]
  | cons hd tl ih =>
    obtain ⟨k, inner⟩ := hd
    by_cases hk : k = ds
    · subst hk
      by_cases h1 : k = ds'
      · subst h1
        by_cases h2 : m = m' <;>
          simp [ddInsert, getDD, alookup, alookup_setA, h2]
      · have hcond : ¬(k = ds' ∧ m = m') := fun hh => h1 hh.1
        simp [ddInsert, getDD, alookup, h1, hcond]
    · by_cases h1 : k = ds'
      · subst h1
        have hcond : ¬(ds = k ∧ m = m') := fun hh => hk hh.1.symm
        simp [ddInsert, hk, getDD, alookup, hcond]
      · simp only [getDD] at ih
        simp [ddInsert, hk, getDD, alookup, h1, ih]

/-- Key set after one update of the daily_data dict. -/
theorem mem_keys_ddInsert (dd : DD) (ds m : String) (v : Int) (a : String) :
    a ∈ (ddInsert dd ds m v).map Prod.fst ↔ a ∈ dd.map Prod.fst ∨ a = ds := by
  induction dd with
  | nil => simp [ddInsert]
  | cons hd tl ih =>
    obtain ⟨k, inner⟩ := hd
    by_cases hk : k = ds
    · subst hk
      simp [ddInsert]
      tauto
    · simp [ddInsert, hk, ih]
      tauto

/-- Key uniqueness is preserved by updates of the daily_data dict. -/
theorem nodup_keys_ddInsert (dd : DD) (ds m : String) (v : Int)
    (hnd : (dd.map Prod.fst).Nodup) : ((ddInsert dd ds m v).map Prod.fst).Nodup := by
  induction dd with
  | nil => simp [ddInsert]
  | cons hd tl ih =>
    obtain ⟨k, inner⟩ := hd
    simp only [List.map_cons, List.nodup_cons] at hnd
    by_cases hk : k = ds
    · subst hk
      simpa [ddInsert] using hnd
    · have h3 : k ∉ (ddInsert tl ds m v).map Prod.fst := by
        rw [mem_keys_ddInsert]
        rintro (hc | hc)
        · exact hnd.1 hc
        · exact hk hc
      simp [ddInsert, hk, h3, ih hnd.2]

end DailyImpressions

namespace DailyImpressions

/-- The dict built by the normalizer loop answers every (date, metric)
lookup with the last reported value in traversal order, threaded through
an arbitrary starting accumulator. -/
theorem buildDD_lookup : ∀ (l : List (String × DatedValue)) (acc dd : DD),
    buildDD l acc = some dd →
    ∀ ds m, getDD dd ds m = reportedFrom (getDD acc ds m) l ds m := by
  intro l
  induction l with
  | nil =>
    intro acc dd h ds m
    simp only [buildDD] at h
    injection h with h
    subst h
    rfl
  | cons hd tl ih =>
    intro acc dd h ds m
    obtain ⟨mm, dv⟩ := hd
    simp only [buildDD] at h
    cases hpv : pyInt (rawVal dv) with
    | none => rw [hpv] at h; simp at h
    | some v =>
      rw [hpv] at h
      rw [ih _ _ h ds m, getDD_ddInsert]
      simp only [reportedFrom, List.foldl_cons]
      rw [hpv]

/-- The key set of the built dict is the date-string set of the payload
plus the starting keys. -/
theorem buildDD_mem : ∀ (l : List (String × DatedValue)) (acc dd : DD),
    buildDD l acc = some dd →
    ∀ ds, ds ∈ dd.map Prod.fst ↔
      ds ∈ acc.map Prod.fst ∨ ds ∈ l.map (fun x => dateStr x.2.date) := by
  intro l
  induction l with
  | nil =>
    intro acc dd h ds
    simp only [buildDD] at h
    injection h with h
    subst h
    simp
  | cons hd tl ih =>
    intro acc dd h ds
    obtain ⟨mm, dv⟩ := hd
    simp only [buildDD] at h
    cases hpv : pyInt (rawVal dv) with
    | none => rw [hpv] at h; simp at h
    | some v =>
      rw [hpv] at h
      rw [ih _ _ h ds, mem_keys_ddInsert]
      simp only [List.map_cons, List.mem_cons]
      tauto

/-- The built dict has pairwise distinct date keys. -/
theorem buildDD_nodup : ∀ (l : List (String × DatedValue)) (acc dd : DD),
    buildDD l acc = some dd → (acc.map Prod.fst).Nodup → (dd.map Prod.fst).Nodup := by
  intro l
  induction l with
  | nil =>
    intro acc dd h hnd
    simp only [buildDD] at h
    injection h with h
    subst h
    exact hnd
  | cons hd tl ih =>
    intro acc dd h hnd
    obtain ⟨mm, dv⟩ := hd
    simp only [buildDD] at h
    cases hpv : pyInt (rawVal dv) with
    | none => rw [hpv] at h; simp at h
    | some v =>
      rw [hpv] at h
      exact ih _ _ h (nodup_keys_ddInsert _ _ _ _ hnd)

/-- When the normalizer loop completes, every value of the payload parsed
as an integer. -/
theorem buildDD_parse_ok : ∀ (l : List (String × DatedValue)) (acc dd : DD),
    buildDD l acc = some dd → ∀ x ∈ l, pyInt (rawVal x.2) ≠ none := by
  intro l
  induction l with
  | nil => intro acc dd _ x hx; cases hx
  | cons hd tl ih =>
    intro acc dd h x hx
    obtain ⟨mm, dv⟩ := hd
    simp only [buildDD] at h
    cases hpv : pyInt (rawVal dv) with
    | none => rw [hpv] at h; simp at h
    | some v =>
      rw [hpv] at h
      cases hx with
      | head => simp [hpv]
      | tail _ hmem => exact ih _ _ h x hmem

/-- Decomposition of a successful run of process_metrics_data_daily. -/
theorem process_eq (resp : MetricsResponse) (recs : List DailyRecord)
    (h : process_metrics_data_daily resp = some recs) :
    ∃ dd : DD, buildDD (flattenResp resp) [] = some dd ∧
      recs = dd.map (fun p => ⟨p.1, p.2⟩) := by
  unfold process_metrics_data_daily at h
  cases hb : buildDD (flattenResp resp) [] with
  | none => rw [hb] at h; simp at h
  | some dd =>
    rw [hb] at h
    simp at h
    exact ⟨dd, rfl, h.symm⟩

/-- The record dates of the normalizer output are the dict keys. -/
theorem recs_map_date (dd : DD) :
    (dd.map (fun p => (⟨p.1, p.2⟩ : DailyRecord))).map DailyRecord.date = dd.map Prod.fst := by
  induction dd with
  | nil => rfl
  | cons h t ih => simp [ih]

/-- Members of the normalizer output are exactly the dict entries. -/
theorem recs_mem (dd : DD) (rec : DailyRecord)
    (h : rec ∈ dd.map (fun p => (⟨p.1, p.2⟩ : DailyRecord))) :
    (rec.date, rec.metrics) ∈ dd := by
  rcases List.mem_map.mp h with ⟨p, hp, he⟩
  subst he
  exact hp

/-- The transform keeps the record dates, in order. -/
theorem transform_map_date (ts : String) : ∀ (l : List LocRecord) (rows : List ImpressionsRow),
    transform_to_bigquery_rows ts l = some rows →
    rows.map ImpressionsRow.date = l.map LocRecord.date := by
  intro l
  induction l with
  | nil =>
    intro rows h
    simp only [transform_to_bigquery_rows] at h
    injection h with h
    subst h
    rfl
  | cons r tl ih =>
    intro rows h
    simp only [transform_to_bigquery_rows] at h
    cases hp : parseDate r.date with
    | none => rw [hp] at h; simp at h
    | some d =>
      rw [hp] at h
      cases ht : transform_to_bigquery_rows ts tl with
      | none => rw [ht] at h; simp at h
      | some rs =>
        rw [ht] at h
        simp only [Option.map_some] at h
        injection h with h
        subst h
        simp [ih _ ht, mkImpRow]

/-- Every transform output row is the row literal of some input record
whose date parsed. -/
theorem transform_mem (ts : String) : ∀ (l : List LocRecord) (rows : List ImpressionsRow),
    transform_to_bigquery_rows ts l = some rows →
    ∀ r ∈ rows, ∃ lr, lr ∈ l ∧ ∃ d, parseDate lr.date = some d ∧ r = mkImpRow ts lr d := by
  intro l
  induction l with
  | nil =>
    intro rows h r hr
    simp only [transform_to_bigquery_rows] at h
    injection h with h
    subst h
    cases hr
  | cons lr0 tl ih =>
    intro rows h r hr
    simp only [transform_to_bigquery_rows] at h
    cases hp : parseDate lr0.date with
    | none => rw [hp] at h; simp at h
    | some d =>
      rw [hp] at h
      cases ht : transform_to_bigquery_rows ts tl with
      | none => rw [ht] at h; simp at h
      | some rs =>
        rw [ht] at h
        simp only [Option.map_some] at h
        injection h with h
        subst h
        cases hr with
        | head =>
          refine ⟨lr0, ?_, d, hp, rfl⟩
          exact List.mem_cons_self _ _
        | tail _ hmem =>
          rcases ih _ ht r hmem with ⟨lr, hlr, d', hd', he⟩
          exact ⟨lr, List.mem_cons_of_mem _ hlr, d', hd', he⟩

/-- Location stamping keeps record dates. -/
theorem attach_map_date (li : LocationInfo) (recs : List DailyRecord) :
    (attachLocation li recs).map LocRecord.date = recs.map DailyRecord.date := by
  induction recs with
  | nil => rfl
  | cons h t ih => simp [attachLocation] at ih ⊢

/-- Every stamped record comes from a record with the same date and
metric dict. -/
theorem attach_mem (li : LocationInfo) (recs : List DailyRecord) (lr : LocRecord)
    (h : lr ∈ attachLocation li recs) :
    ∃ rec ∈ recs, lr.date = rec.date ∧ lr.metrics = rec.metrics := by
  rcases List.mem_map.mp h with ⟨rec, hm, he⟩
  subst he
  exact ⟨rec, hm, rfl, rfl⟩

/-- The metric columns of a built row are the record lookups with
default 0. -/
theorem metricField_mkImpRow (ts : String) (lr : LocRecord) (d : Date) :
    ∀ m ∈ trackedMetrics, metricField (mkImpRow ts lr d) m = recGet lr.metrics m := by
  intro m hm
  simp only [trackedMetrics, List.mem_cons, List.not_mem_nil, or_false] at hm
  rcases hm with rfl | rfl | rfl | rfl | rfl | rfl | rfl | rfl | rfl | rfl <;> rfl

end DailyImpressions

open DailyImpressions in
/-- Claim C6: for every time-series payload whose normalization and
transform complete, there is exactly one row per distinct date seen
across all metrics of the entity (dates are pairwise distinct and are
exactly the date strings of the payload); each tracked metric column
carries the reported value for that (date, metric) pair, or 0 when the
pair never appeared; and the derived totals equal the sums of the four
impression channels and of the four action metrics. -/
theorem C6_timeseries_zero_fill_and_totals
    (resp : MetricsResponse) (li : LocationInfo) (ts : String)
    (recs : List DailyRecord) (rows : List ImpressionsRow)
    (hp : process_metrics_data_daily resp = some recs)
    (ht : transform_to_bigquery_rows ts (attachLocation li recs) = some rows) :
    (rows.map ImpressionsRow.date).Nodup
    ∧ (∀ ds, ds ∈ rows.map ImpressionsRow.date ↔
        ds ∈ (flattenResp resp).map (fun x => dateStr x.2.date))
    ∧ (∀ r ∈ rows, ∀ m ∈ trackedMetrics,
        metricField r m = (reported (flattenResp resp) r.date m).getD 0)
    ∧ (∀ r ∈ rows,
        r.total_impressions = r.impressions_desktop_maps + r.impressions_desktop_search
          + r.impressions_mobile_maps + r.impressions_mobile_search
        ∧ r.total_actions = r.website_clicks + r.call_clicks
          + r.direction_requests + r.conversations) := by
  obtain ⟨dd, hdd, hrecs⟩ := process_eq resp recs hp
  have hdates : rows.map ImpressionsRow.date = dd.map Prod.fst := by
    rw [transform_map_date ts _ _ ht, attach_map_date, hrecs, recs_map_date]
  have hnodup : (dd.map Prod.fst).Nodup := buildDD_nodup _ _ _ hdd (by simp)
  refine ⟨?_, ?_, ?_, ?_⟩
  · rw [hdates]; exact hnodup
  · intro ds
    rw [hdates]
    have hm := buildDD_mem _ _ _ hdd ds
    simpa using hm
  · intro r hr m hm
    obtain ⟨lr, hlr, d, hd, he⟩ := transform_mem ts _ _ ht r hr
    obtain ⟨rec, hrec, hdate, hmet⟩ := attach_mem li recs lr hlr
    subst he
    rw [metricField_mkImpRow ts lr d m hm]
    rw [hrecs] at hrec
    have hmem : (rec.date, rec.metrics) ∈ dd := recs_mem dd rec hrec
    have hlook : alookup dd rec.date = some rec.metrics :=
      alookup_eq_of_mem dd _ _ hnodup hmem
    have hget : getDD dd rec.date m = alookup rec.metrics m := by
      simp [getDD, hlook]
    have hrep := buildDD_lookup _ _ _ hdd rec.date m
    rw [hget] at hrep
    have hrepeq : reported (flattenResp resp) rec.date m = alookup rec.metrics m :=
      hrep.symm
    have hrowdate : (mkImpRow ts lr d).date = rec.date := by
      simp [mkImpRow, hdate]
    rw [hrowdate, hrepeq]
    simp [recGet, hmet]
  · intro r hr
    obtain ⟨lr, _, d, _, he⟩ := transform_mem ts _ _ ht r hr
    subst he
    constructor <;> simp [mkImpRow]

/-- Witness for claim C6 at the concrete payload respW. -/
theorem C6_witness :
    DailyImpressions.process_metrics_data_daily respW = some recsW
    ∧ DailyImpressions.transform_to_bigquery_rows "TS"
        (DailyImpressions.attachLocation liW recsW) = some rowsW
    ∧ ((rowsW.map DailyImpressions.ImpressionsRow.date).Nodup
      ∧ (∀ ds, ds ∈ rowsW.map DailyImpressions.ImpressionsRow.date ↔
          ds ∈ (DailyImpressions.flattenResp respW).map
            (fun x => DailyImpressions.dateStr x.2.date))
      ∧ (∀ r ∈ rowsW, ∀ m ∈ DailyImpressions.trackedMetrics,
          DailyImpressions.metricField r m =
            (DailyImpressions.reported (DailyImpressions.flattenResp respW) r.date m).getD 0)
      ∧ (∀ r ∈ rowsW,
          r.total_impressions = r.impressions_desktop_maps + r.impressions_desktop_search
            + r.impressions_mobile_maps + r.impressions_mobile_search
          ∧ r.total_actions = r.website_clicks + r.call_clicks
            + r.direction_requests + r.conversations)) :=
  ⟨by decide, by decide,
   C6_timeseries_zero_fill_and_totals respW liW "TS" recsW rowsW (by decide) (by decide)⟩

open DailyImpressions in
/-- Claim C1: loading the same impressions batch twice against the same
initial warehouse leaves the warehouse in the same final state as loading
it once, and after a load the rows carrying the touched partition keys
are exactly the batch: the rerun fully supersedes the prior rows for
those keys and duplicates no row. -/
theorem C1_load_idempotence (rows wh : List ImpressionsRow) :
    write_to_bigquery rows (write_to_bigquery rows wh) = write_to_bigquery rows wh
    ∧ (write_to_bigquery rows wh).filter
        (fun r => decide (r.date ∈ rows.map ImpressionsRow.date)) = rows := by
  cases rows with
  | nil =>
    refine ⟨rfl, ?_⟩
    simp [write_to_bigquery]
  | cons r0 rest =>
    have hmem : ∀ r ∈ (r0 :: rest),
        r.date ∈ (r0 :: rest).map ImpressionsRow.date := by
      intro r hr
      exact List.mem_map_of_mem _ hr
    have hw : write_to_bigquery (r0 :: rest) wh
        = wh.filter (fun r => !(decide (r.date ∈ (r0 :: rest).map ImpressionsRow.date)))
          ++ (r0 :: rest) := rfl
    constructor
    · rw [hw]
      show List.filter _ _ ++ (r0 :: rest) = _
      rw [List.filter_append]
      have h1 : (wh.filter (fun r => !(decide (r.date ∈ (r0 :: rest).map ImpressionsRow.date)))).filter
          (fun r => !(decide (r.date ∈ (r0 :: rest).map ImpressionsRow.date)))
          = wh.filter (fun r => !(decide (r.date ∈ (r0 :: rest).map ImpressionsRow.date))) := by
        apply List.filter_eq_self.mpr
        intro a ha
        exact (List.mem_filter.mp ha).2
      have h2 : (r0 :: rest).filter
          (fun r => !(decide (r.date ∈ (r0 :: rest).map ImpressionsRow.date))) = [] := by
        rw [List.filter_eq_nil_iff]
        intro a ha
        simp only [decide_eq_true (hmem a ha), Bool.not_true, Bool.false_eq_true,
          not_false_eq_true]
      rw [h1, h2, List.append_nil]
    · rw [hw, List.filter_append]
      have h1 : (wh.filter (fun r => !(decide (r.date ∈ (r0 :: rest).map ImpressionsRow.date)))).filter
          (fun r => decide (r.date ∈ (r0 :: rest).map ImpressionsRow.date)) = [] := by
        rw [List.filter_eq_nil_iff]
        intro a ha
        have hp := (List.mem_filter.mp ha).2
        have hnot : ¬ (a.date ∈ (r0 :: rest).map ImpressionsRow.date) := by
          intro hin
          rw [decide_eq_true hin] at hp
          simp at hp
        simpa using hnot
      have h2 : (r0 :: rest).filter
          (fun r => decide (r.date ∈ (r0 :: rest).map ImpressionsRow.date)) = (r0 :: rest) := by
        apply List.filter_eq_self.mpr
        intro a ha
        exact decide_eq_true (hmem a ha)
      rw [h1, h2, List.nil_append]

/-- Filtering by a predicate that implies a previous filter keeps exactly
the rows of the later predicate. -/
theorem filter_filter_of_imp {α : Type} (l : List α) (p q : α → Bool)
    (h : ∀ x, q x = true → p x = true) : (l.filter p).filter q = l.filter q := by
  induction l with
  | nil => rfl
  | cons a t ih =>
    cases hq : q a with
    | true =>
      have hp := h a hq
      simp [List.filter_cons, hp, hq, ih]
    | false =>
      cases hp : p a with
      | true => simp [List.filter_cons, hp, hq, ih]
      | false => simp [List.filter_cons, hp, hq, ih]

/-- Claim C2 (amended): the impressions loader deletes exactly the
warehouse rows whose date lies in the distinct date set of the batch and
leaves every other partition unchanged, unconditionally; the keywords
loader does so provided every batch row carries the load-time current
date as its collection_date (its delete is keyed on the clock, not on the
batch). -/
theorem C2_load_partition_isolation :
    (∀ (rows wh : List DailyImpressions.ImpressionsRow) (k : String),
      (k ∉ rows.map DailyImpressions.ImpressionsRow.date →
        (DailyImpressions.write_to_bigquery rows wh).filter (fun r => decide (r.date = k))
          = wh.filter (fun r => decide (r.date = k)))
      ∧ (k ∈ rows.map DailyImpressions.ImpressionsRow.date →
        (DailyImpressions.write_to_bigquery rows wh).filter (fun r => decide (r.date = k))
          = rows.filter (fun r => decide (r.date = k))))
    ∧ (∀ (rows wh : List KeywordsCollector.KeywordRow) (today k : String),
      (∀ r ∈ rows, r.collection_date = today) →
      (k ∉ rows.map KeywordsCollector.KeywordRow.collection_date →
        (KeywordsCollector.write_to_bigquery rows today wh).filter
          (fun r => decide (r.collection_date = k))
          = wh.filter (fun r => decide (r.collection_date = k)))
      ∧ (k ∈ rows.map KeywordsCollector.KeywordRow.collection_date →
        (KeywordsCollector.write_to_bigquery rows today wh).filter
          (fun r => decide (r.collection_date = k))
          = rows.filter (fun r => decide (r.collection_date = k)))) := by
  constructor
  · intro rows wh k
    cases rows with
    | nil =>
      refine ⟨fun _ => rfl, fun hk => ?_⟩
      simp at hk
    | cons r0 rest =>
      have hw : DailyImpressions.write_to_bigquery (r0 :: rest) wh
          = wh.filter (fun r =>
              !(decide (r.date ∈ (r0 :: rest).map DailyImpressions.ImpressionsRow.date)))
            ++ (r0 :: rest) := rfl
      constructor
      · intro hk
        rw [hw, List.filter_append]
        have h2 : (r0 :: rest).filter (fun r => decide (r.date = k)) = [] := by
          rw [List.filter_eq_nil_iff]
          intro a ha
          simp only [decide_eq_true_eq]
          intro he
          exact hk (he ▸ List.mem_map_of_mem _ ha)
        rw [h2, List.append_nil]
        apply filter_filter_of_imp
        intro x hx
        simp only [decide_eq_true_eq] at hx
        rw [hx]
        simpa using hk
      · intro hk
        rw [hw, List.filter_append]
        have h1 : (wh.filter (fun r =>
            !(decide (r.date ∈ (r0 :: rest).map DailyImpressions.ImpressionsRow.date)))).filter
            (fun r => decide (r.date = k)) = [] := by
          rw [List.filter_eq_nil_iff]
          intro a ha
          have hp := (List.mem_filter.mp ha).2
          simp only [decide_eq_true_eq]
          intro he
          rw [he, decide_eq_true hk] at hp
          simp at hp
        rw [h1, List.nil_append]
  · intro rows wh today k huni
    cases rows with
    | nil =>
      refine ⟨fun _ => rfl, fun hk => ?_⟩
      simp at hk
    | cons r0 rest =>
      have hw : KeywordsCollector.write_to_bigquery (r0 :: rest) today wh
          = wh.filter (fun r => !(decide (r.collection_date = today))) ++ (r0 :: rest) := rfl
      have htoday : r0.collection_date = today := huni r0 (List.mem_cons_self _ _)
      constructor
      · intro hk
        have hkt : ¬ k = today := by
          intro he
          apply hk
          rw [he, ← htoday]
          exact List.mem_map_of_mem _ (List.mem_cons_self _ _)
        rw [hw, List.filter_append]
        have h2 : (r0 :: rest).filter (fun r => decide (r.collection_date = k)) = [] := by
          rw [List.filter_eq_nil_iff]
          intro a ha
          simp only [decide_eq_true_eq]
          intro he
          exact hk (he ▸ List.mem_map_of_mem _ ha)
        rw [h2, List.append_nil]
        apply filter_filter_of_imp
        intro x hx
        simp only [decide_eq_true_eq] at hx
        have hxt : ¬ x.collection_date = today := by
          rw [hx]; exact hkt
        simp [hxt]
      · intro hk
        have hkt : k = today := by
          rcases List.mem_map.mp hk with ⟨a, ha, he⟩
          rw [← he]
          exact huni a ha
        rw [hw, List.filter_append]
        have h1 : (wh.filter (fun r => !(decide (r.collection_date = today)))).filter
            (fun r => decide (r.collection_date = k)) = [] := by
          rw [List.filter_eq_nil_iff]
          intro a ha
          have hp := (List.mem_filter.mp ha).2
          simp only [decide_eq_true_eq]
          intro he
          rw [he, hkt, decide_eq_true rfl] at hp
          simp at hp
        rw [h1, List.nil_append]

/-- Counterexample for claim C2 as stated: the keywords loader keys its
delete on the load-time date, so loading a batch whose only partition key
is 2024-01-01 on 2024-01-02 removes the warehouse row of the untouched
partition 2024-01-02 (the final state is just the batch) even though
2024-01-02 is not among the partition keys of the batch. -/
theorem C2_counterexample_keywords_delete :
    KeywordsCollector.write_to_bigquery [kwRowA] "2024-01-02" [kwRowB] = [kwRowA]
    ∧ ¬ ("2024-01-02" ∈ [kwRowA].map KeywordsCollector.KeywordRow.collection_date) :=
  ⟨rfl, by decide⟩

/-- Witness for claim C2 at a concrete batch, warehouse and date. -/
theorem C2_witness :
    (∀ r ∈ [kwRowW], r.collection_date = "2024-01-05")
    ∧ (("2024-01-04" : String) ∉ [kwRowW].map KeywordsCollector.KeywordRow.collection_date →
      (KeywordsCollector.write_to_bigquery [kwRowW] "2024-01-05" [kwRowB]).filter
        (fun r => decide (r.collection_date = "2024-01-04"))
        = [kwRowB].filter (fun r => decide (r.collection_date = "2024-01-04"))) := by
  constructor
  · intro r hr
    simp only [List.mem_singleton] at hr
    rw [hr]
    rfl
  · exact (C2_load_partition_isolation.2 [kwRowW] [kwRowB] "2024-01-05" "2024-01-04"
      (by intro r hr; simp only [List.mem_singleton] at hr; rw [hr]; rfl)).1

/-- Claim C3 (amended): the keyword normalizer resolves a numeric field
that fails to parse to 0 without raising, and the time-series normalizer
resolves an ABSENT value field to 0; but a present value that fails to
parse as a number makes the time-series normalizer raise (the run
aborts), so the degraded-parse guarantee holds only on the keyword
side. -/
theorem C3_degraded_parse_amended :
    (∀ (fs : List (String × JVal)) (v : JVal), alookup fs "value" = some v →
      pyInt v = none → KeywordsCollector.extract_impressions (.jdict fs) = 0)
    ∧ (∀ d : DailyImpressions.DateObj,
        pyInt (DailyImpressions.rawVal ⟨d, none⟩) = some 0)
    ∧ (∀ resp : DailyImpressions.MetricsResponse,
        (∃ x ∈ DailyImpressions.flattenResp resp,
          pyInt (DailyImpressions.rawVal x.2) = none) →
        DailyImpressions.process_metrics_data_daily resp = none) := by
  refine ⟨?_, ?_, ?_⟩
  · intro fs v hv hp
    simp [KeywordsCollector.extract_impressions, hv, hp]
  · intro d
    rfl
  · intro resp hex
    rcases hex with ⟨x, hx, hpx⟩
    cases hb : DailyImpressions.buildDD (DailyImpressions.flattenResp resp) [] with
    | none => simp [DailyImpressions.process_metrics_data_daily, hb]
    | some dd => exact absurd hpx (DailyImpressions.buildDD_parse_ok _ _ _ hb x hx)

/-- Counterexample for claim C3 as stated: on a payload whose value is
the string abc, the time-series normalizer raises (modelled as none)
instead of defaulting the metric to 0 and completing. -/
theorem C3_counterexample_timeseries_raises :
    DailyImpressions.process_metrics_data_daily respBad = none := rfl

/-- Witness for claim C3 at concrete inputs. -/
theorem C3_witness :
    (alookup [("value", JVal.jstr "abc")] "value" = some (JVal.jstr "abc")
      ∧ pyInt (JVal.jstr "abc") = none
      ∧ KeywordsCollector.extract_impressions (.jdict [("value", .jstr "abc")]) = 0)
    ∧ pyInt (DailyImpressions.rawVal ⟨⟨2024, 1, 5⟩, none⟩) = some 0
    ∧ ((∃ x ∈ DailyImpressions.flattenResp respBad,
          pyInt (DailyImpressions.rawVal x.2) = none)
      ∧ DailyImpressions.process_metrics_data_daily respBad = none) := by
  have hex : ∃ x ∈ DailyImpressions.flattenResp respBad,
      pyInt (DailyImpressions.rawVal x.2) = none := by
    refine ⟨("WEBSITE_CLICKS", ⟨⟨2024, 1, 5⟩, some (.jstr "abc")⟩), ?_, rfl⟩
    rw [show DailyImpressions.flattenResp respBad
        = [("WEBSITE_CLICKS", ⟨⟨2024, 1, 5⟩, some (.jstr "abc")⟩)] from rfl]
    exact List.mem_singleton.mpr rfl
  exact ⟨⟨rfl, rfl, C3_degraded_parse_amended.1 [("value", JVal.jstr "abc")]
      (JVal.jstr "abc") rfl rfl⟩,
    C3_degraded_parse_amended.2.1 ⟨2024, 1, 5⟩,
    hex, C3_degraded_parse_amended.2.2 respBad hex⟩

open KeywordsCollector in
/-- Claim C4 (amended): for every input keyword record the normalizer
emits exactly one row, carrying the resolved keyword and resolved count,
iff the resolved count is non-zero and the resolved keyword is not the
UNKNOWN sentinel; the keyword resolves both flat and wrapped in a dict
with a string field; the impression count resolves only from the wrapper
form (a dict with a value field, numeric or numeric string) - a flat
count resolves to 0, so such records are dropped. -/
theorem C4_keyword_normalization_amended :
    (∀ (collDate ts : String) (mb : Int) (r : KWRecord) (rest : List KWRecord),
      transform_to_bigquery_rows collDate ts mb (r :: rest)
        = (if resolvedImpressions r = 0 ∨ pyEqStr (resolvedKeyword r) "UNKNOWN" then []
           else [{ collection_date := collDate, location_name := r.location_name,
                   location_title := r.location_title, keyword := resolvedKeyword r,
                   impressions := resolvedImpressions r, months_period := mb,
                   data_fetched_at := ts }])
          ++ transform_to_bigquery_rows collDate ts mb rest)
    ∧ (∀ s : String, extract_keyword_value (.jstr s) = .jstr s)
    ∧ (∀ s : String, extract_keyword_value (.jdict [("string", .jstr s)]) = .jstr s)
    ∧ (∀ n : Int, extract_impressions (.jdict [("value", .jint n)]) = n)
    ∧ (∀ (s : String) (n : Int), pyInt (.jstr s) = some n →
        extract_impressions (.jdict [("value", .jstr s)]) = n)
    ∧ (∀ n : Int, extract_impressions (.jint n) = 0)
    ∧ (∀ s : String, extract_impressions (.jstr s) = 0) := by
  refine ⟨?_, ?_, ?_, ?_, ?_, ?_, ?_⟩
  · intro collDate ts mb r rest
    by_cases h : resolvedImpressions r = 0 ∨ pyEqStr (resolvedKeyword r) "UNKNOWN"
    · simp only [transform_to_bigquery_rows, h, if_pos, List.nil_append]
    · simp only [transform_to_bigquery_rows, h, if_neg, List.singleton_append, if_false,
        ite_false]
  · intro s; rfl
  · intro s; rfl
  · intro n; rfl
  · intro s n h
    simp [extract_impressions, alookup, h]
  · intro n; rfl
  · intro s; rfl

/-- Counterexample for claim C4 as stated: a record whose keyword
resolves to pizza and whose impression count appears FLAT as the integer
5 is dropped by the normalizer (the count resolves to 0), although the
claim requires it to be present with impressions 5. -/
theorem C4_counterexample_flat_count :
    KeywordsCollector.transform_to_bigquery_rows "2024-01-05" "TS" 3
      [⟨some (.jstr "pizza"), some (.jint 5), "L", "T"⟩] = []
    ∧ KeywordsCollector.resolvedKeyword ⟨some (.jstr "pizza"), some (.jint 5), "L", "T"⟩
      = .jstr "pizza"
    ∧ KeywordsCollector.extract_impressions (.jint 5) = 0 :=
  ⟨rfl, rfl, rfl⟩

/-- Witness for claim C4 at a concrete wrapped numeric string count. -/
theorem C4_witness :
    pyInt (JVal.jstr "5") = some 5
    ∧ KeywordsCollector.extract_impressions (.jdict [("value", .jstr "5")]) = 5 :=
  ⟨rfl, C4_keyword_normalization_amended.2.2.2.2.1 "5" 5 rfl⟩

open LocationStatusCollector in
/-- Claim C5 (amended): the status decision table over the two booleans
verified (hasVoiceOfMerchant) and published (presence of a truthy maps
URI) assigns, with ASCII hyphens as the code writes them: (t,t) ACTIVE -
Verified & Published, (t,f) CLAIMED - Not Yet Published, (f,t) PUBLISHED
- Not Claimed, (f,f) INACTIVE - Not Claimed/Published; the transform
emits exactly one row per entity, each carrying the table status of its
own metadata. -/
theorem C5_status_decision_table :
    (∀ md : Metadata,
      (md.hasVoiceOfMerchant = true → pyTruthy md.mapsUri = true →
        (determine_location_status md).overall_status = "ACTIVE - Verified & Published")
      ∧ (md.hasVoiceOfMerchant = true → pyTruthy md.mapsUri = false →
        (determine_location_status md).overall_status = "CLAIMED - Not Yet Published")
      ∧ (md.hasVoiceOfMerchant = false → pyTruthy md.mapsUri = true →
        (determine_location_status md).overall_status = "PUBLISHED - Not Claimed")
      ∧ (md.hasVoiceOfMerchant = false → pyTruthy md.mapsUri = false →
        (determine_location_status md).overall_status = "INACTIVE - Not Claimed/Published"))
    ∧ (∀ (http : String → Except Unit PlacesResponse) (now : PyDateTime)
        (api_key : Option String) (locs : List StatusLocation),
        (transform_to_bigquery_rows http now api_key locs).length = locs.length)
    ∧ (∀ (http : String → Except Unit PlacesResponse) (now : PyDateTime)
        (api_key : Option String) (locs : List StatusLocation) (r : StatusRow),
        r ∈ transform_to_bigquery_rows http now api_key locs →
        ∃ loc ∈ locs,
          r.overall_status = (determine_location_status loc.metadata).overall_status) := by
  refine ⟨?_, ?_, ?_⟩
  · intro md
    refine ⟨?_, ?_, ?_, ?_⟩ <;>
      intro hv hm <;>
      simp [determine_location_status, hv, hm]
  · intro http now api_key locs
    simp [transform_to_bigquery_rows]
  · intro http now api_key locs r hr
    rcases List.mem_map.mp hr with ⟨loc, hloc, he⟩
    refine ⟨loc, hloc, ?_⟩
    rw [← he]
    rfl

/-- Counterexample for claim C5 as stated: at (verified, published) =
(true, true) the code produces the label with an ASCII hyphen, which is
not the em-dash label the claim quotes. -/
theorem C5_counterexample_dash_mismatch :
    (LocationStatusCollector.determine_location_status
      ⟨true, some "maps", none, none, false⟩).overall_status
      = "ACTIVE - Verified & Published"
    ∧ ¬ ((LocationStatusCollector.determine_location_status
      ⟨true, some "maps", none, none, false⟩).overall_status
      = "ACTIVE — Verified & Published") :=
  ⟨rfl, by decide⟩

/-- Witness for claim C5 at a concrete verified unpublished metadata and
a one-location transform. -/
theorem C5_witness :
    ((⟨true, none, none, none, false⟩ : LocationStatusCollector.Metadata).hasVoiceOfMerchant
      = true
    ∧ LocationStatusCollector.pyTruthy
        (⟨true, none, none, none, false⟩ : LocationStatusCollector.Metadata).mapsUri = false
    ∧ (LocationStatusCollector.determine_location_status
        ⟨true, none, none, none, false⟩).overall_status = "CLAIMED - Not Yet Published")
    ∧ ((LocationStatusCollector.mkStatusRow httpErr nowX none locX)
        ∈ LocationStatusCollector.transform_to_bigquery_rows httpErr nowX none [locX]
      ∧ ∃ loc ∈ [locX],
          (LocationStatusCollector.mkStatusRow httpErr nowX none locX).overall_status
            = (LocationStatusCollector.determine_location_status loc.metadata).overall_status) := by
  refine ⟨⟨rfl, rfl, (C5_status_decision_table.1 ⟨true, none, none, none, false⟩).2.1 rfl rfl⟩,
    ?_, ?_⟩
  · exact List.mem_map_of_mem _ (List.mem_singleton.mpr rfl)
  · exact C5_status_decision_table.2.2 httpErr nowX none [locX]
      (LocationStatusCollector.mkStatusRow httpErr nowX none locX)
      (List.mem_map_of_mem _ (List.mem_singleton.mpr rfl))

open LocationStatusCollector in
/-- No-rating conditions force the resolved rating to nothing. -/
theorem resolvedRating_eq_none_of_noRatingCond
    (http : String → Except Unit PlacesResponse) (api_key : Option String)
    (loc : StatusLocation) (hno : noRatingCond http api_key loc) :
    resolvedRating http api_key loc = none := by
  rcases hno with h | h | h | ⟨resp, hre, hst⟩ | ⟨resp, hre, hra⟩
  · simp [resolvedRating, ratingDataOf, h]
  · simp [resolvedRating, ratingDataOf, h]
  · by_cases ht : (pyTruthy loc.metadata.placeId && pyTruthy api_key) = true
    · have hak : pyTruthy api_key = true := (Bool.and_eq_true .. |>.mp ht).2
      simp [resolvedRating, ratingDataOf, ht, get_rating_from_places_api, hak, h]
    · simp [resolvedRating, ratingDataOf, Bool.not_eq_true .. |>.mp ht]
  · by_cases ht : (pyTruthy loc.metadata.placeId && pyTruthy api_key) = true
    · have hak : pyTruthy api_key = true := (Bool.and_eq_true .. |>.mp ht).2
      simp [resolvedRating, ratingDataOf, ht, get_rating_from_places_api, hak, hre, hst]
    · simp [resolvedRating, ratingDataOf, Bool.not_eq_true .. |>.mp ht]
  · by_cases ht : (pyTruthy loc.metadata.placeId && pyTruthy api_key) = true
    · have hak : pyTruthy api_key = true := (Bool.and_eq_true .. |>.mp ht).2
      by_cases hst : resp.status = some "OK"
      · simp [resolvedRating, ratingDataOf, ht, get_rating_from_places_api, hak, hre, hst, hra]
      · simp [resolvedRating, ratingDataOf, ht, get_rating_from_places_api, hak, hre, hst]
    · simp [resolvedRating, ratingDataOf, Bool.not_eq_true .. |>.mp ht]

open LocationStatusCollector in
/-- Claim C7: the row the status transform produces for a location is in
its output, and whenever no rating could be resolved for that location
(disabled lookup, failed or non-OK lookup, or absent rating key) the row
carries rating 0.0 and has_rating false; in general the rating column is
the resolved rating defaulted to 0.0, never an absent value. -/
theorem C7_rating_default (http : String → Except Unit PlacesResponse)
    (now : PyDateTime) (api_key : Option String) (loc : StatusLocation)
    (locs : List StatusLocation) (hmem : loc ∈ locs)
    (hno : noRatingCond http api_key loc) :
    mkStatusRow http now api_key loc ∈ transform_to_bigquery_rows http now api_key locs
    ∧ (mkStatusRow http now api_key loc).rating = 0
    ∧ (mkStatusRow http now api_key loc).has_rating = false
    ∧ (mkStatusRow http now api_key loc).rating
        = (resolvedRating http api_key loc).getD 0 := by
  have hres := resolvedRating_eq_none_of_noRatingCond http api_key loc hno
  refine ⟨List.mem_map_of_mem _ hmem, ?_, ?_, rfl⟩
  · show (resolvedRating http api_key loc).getD 0 = 0
    rw [hres]
    rfl
  · show (resolvedRating http api_key loc).isSome = false
    rw [hres]
    rfl

/-- Witness for claim C7 at a concrete location without a place id and a
failing Places endpoint. -/
theorem C7_witness :
    locX ∈ [locX]
    ∧ LocationStatusCollector.noRatingCond httpErr none locX
    ∧ (LocationStatusCollector.mkStatusRow httpErr nowX none locX
        ∈ LocationStatusCollector.transform_to_bigquery_rows httpErr nowX none [locX]
      ∧ (LocationStatusCollector.mkStatusRow httpErr nowX none locX).rating = 0
      ∧ (LocationStatusCollector.mkStatusRow httpErr nowX none locX).has_rating = false
      ∧ (LocationStatusCollector.mkStatusRow httpErr nowX none locX).rating
          = (LocationStatusCollector.resolvedRating httpErr none locX).getD 0) := by
  have hmem : locX ∈ [locX] := List.mem_singleton.mpr rfl
  have hno : LocationStatusCollector.noRatingCond httpErr none locX := Or.inl rfl
  exact ⟨hmem, hno, C7_rating_default httpErr nowX none locX [locX] hmem hno⟩

open LocationStatusCollector in
/-- Claim C10: every row of one status transform run carries the same
check_date (the single utcnow date taken before the loop) and the same
check_timestamp; hence in a batch where all rows share the first row
check_date, the loader delete (keyed on the first row only) covers every
partition key present in the batch: each touched partition ends up
holding exactly the batch rows of that key. -/
theorem C10_uniform_check_date :
    (∀ (http : String → Except Unit PlacesResponse) (now : PyDateTime)
        (api_key : Option String) (locs : List StatusLocation),
      ∀ r ∈ transform_to_bigquery_rows http now api_key locs,
        r.check_date = isoDate now.date ∧ r.check_timestamp = pyIso now)
    ∧ (∀ (http : String → Except Unit PlacesResponse) (now : PyDateTime)
        (api_key : Option String) (locs : List StatusLocation),
      ∀ r ∈ transform_to_bigquery_rows http now api_key locs,
      ∀ q ∈ transform_to_bigquery_rows http now api_key locs,
        r.check_date = q.check_date)
    ∧ (∀ (r0 : StatusRow) (rest wh : List StatusRow),
        (∀ r ∈ r0 :: rest, r.check_date = r0.check_date) →
        ∀ k ∈ (r0 :: rest).map StatusRow.check_date,
          (write_to_bigquery (r0 :: rest) wh).filter (fun x => decide (x.check_date = k))
            = (r0 :: rest).filter (fun x => decide (x.check_date = k))) := by
  refine ⟨?_, ?_, ?_⟩
  · intro http now api_key locs r hr
    rcases List.mem_map.mp hr with ⟨loc, _, he⟩
    rw [← he]
    exact ⟨rfl, rfl⟩
  · intro http now api_key locs r hr q hq
    rcases List.mem_map.mp hr with ⟨loc, _, he⟩
    rcases List.mem_map.mp hq with ⟨loc2, _, he2⟩
    rw [← he, ← he2]
    rfl
  · intro r0 rest wh huni k hk
    have hk0 : k = r0.check_date := by
      rcases List.mem_map.mp hk with ⟨a, ha, he⟩
      rw [← he]
      exact huni a ha
    have hw : write_to_bigquery (r0 :: rest) wh
        = wh.filter (fun r => !(decide (r.check_date = r0.check_date))) ++ (r0 :: rest) := rfl
    rw [hw, List.filter_append]
    have h1 : (wh.filter (fun r => !(decide (r.check_date = r0.check_date)))).filter
        (fun x => decide (x.check_date = k)) = [] := by
      rw [List.filter_eq_nil_iff]
      intro a ha
      have hp := (List.mem_filter.mp ha).2
      simp only [decide_eq_true_eq]
      intro he
      rw [he, hk0, decide_eq_true rfl] at hp
      simp at hp
    rw [h1, List.nil_append]

/-- Witness for claim C10 at a concrete one-location run and a concrete
uniform batch. -/
theorem C10_witness :
    ((LocationStatusCollector.mkStatusRow httpErr nowX none locX)
        ∈ LocationStatusCollector.transform_to_bigquery_rows httpErr nowX none [locX]
      ∧ (LocationStatusCollector.mkStatusRow httpErr nowX none locX).check_date
          = isoDate nowX.date
      ∧ (LocationStatusCollector.mkStatusRow httpErr nowX none locX).check_timestamp
          = LocationStatusCollector.pyIso nowX)
    ∧ ((∀ r ∈ [LocationStatusCollector.mkStatusRow httpErr nowX none locX],
          r.check_date = (LocationStatusCollector.mkStatusRow httpErr nowX none locX).check_date)
      ∧ "2024-01-05"
          ∈ [LocationStatusCollector.mkStatusRow httpErr nowX none locX].map
              LocationStatusCollector.StatusRow.check_date
      ∧ (LocationStatusCollector.write_to_bigquery
            [LocationStatusCollector.mkStatusRow httpErr nowX none locX] []).filter
          (fun x => decide (x.check_date = "2024-01-05"))
          = [LocationStatusCollector.mkStatusRow httpErr nowX none locX].filter
              (fun x => decide (x.check_date = "2024-01-05"))) := by
  have hmem : LocationStatusCollector.mkStatusRow httpErr nowX none locX
      ∈ LocationStatusCollector.transform_to_bigquery_rows httpErr nowX none [locX] :=
    List.mem_map_of_mem _ (List.mem_singleton.mpr rfl)
  have huni : ∀ r ∈ [LocationStatusCollector.mkStatusRow httpErr nowX none locX],
      r.check_date = (LocationStatusCollector.mkStatusRow httpErr nowX none locX).check_date := by
    intro r hr
    rw [List.mem_singleton.mp hr]
  have hkmem : "2024-01-05"
      ∈ [LocationStatusCollector.mkStatusRow httpErr nowX none locX].map
          LocationStatusCollector.StatusRow.check_date := by
    rw [show [LocationStatusCollector.mkStatusRow httpErr nowX none locX].map
        LocationStatusCollector.StatusRow.check_date = ["2024-01-05"] from rfl]
    exact List.mem_singleton.mpr rfl
  refine ⟨⟨hmem, (C10_uniform_check_date.1 httpErr nowX none [locX] _ hmem).1,
    (C10_uniform_check_date.1 httpErr nowX none [locX] _ hmem).2⟩,
    huni, hkmem,
    C10_uniform_check_date.2.2 (LocationStatusCollector.mkStatusRow httpErr nowX none locX)
      [] [] huni "2024-01-05" hkmem⟩

/-- Pagination stops at the first failing page, returning exactly the
items accumulated from the pages before it, provided every earlier page
carried a continuation token. -/
theorem paginate_partial {α : Type} (good : List (PageOf α))
    (rest : List (Except Unit (PageOf α)))
    (h : ∀ p ∈ good, p.nextPageToken ≠ none) :
    paginate (good.map Except.ok ++ Except.error () :: rest)
      = good.flatMap (fun p => p.items.getD []) := by
  induction good with
  | nil => rfl
  | cons p t ih =>
    have hp := h p (List.mem_cons_self _ _)
    cases htok : p.nextPageToken with
    | none => exact absurd htok hp
    | some tok =>
      have ht : ∀ q ∈ t, q.nextPageToken ≠ none :=
        fun q hq => h q (List.mem_cons_of_mem _ hq)
      simp only [List.map_cons, List.cons_append, paginate, htok, List.flatMap_cons,
        List.append_eq, ih ht]

/-- Claim C8: when page i of a paginated fetch fails with a transport or
HTTP level error, both get_all_locations and the keyword pagination
return exactly the items accumulated from pages 1..i-1 (no value of any
later response is consulted, and no error escapes the fetch). -/
theorem C8_pagination_partial_failure :
    (∀ (good : List (PageOf DailyImpressions.Location))
        (rest : List (Except Unit (PageOf DailyImpressions.Location))),
      (∀ p ∈ good, p.nextPageToken ≠ none) →
      DailyImpressions.get_all_locations (good.map Except.ok ++ Except.error () :: rest)
        = good.flatMap (fun p => p.items.getD []))
    ∧ (∀ (good : List (PageOf KeywordsCollector.KWRaw))
        (rest : List (Except Unit (PageOf KeywordsCollector.KWRaw))),
      (∀ p ∈ good, p.nextPageToken ≠ none) →
      KeywordsCollector.get_search_keywords (good.map Except.ok ++ Except.error () :: rest)
        = good.flatMap (fun p => p.items.getD [])) :=
  ⟨fun good rest h => paginate_partial good rest h,
   fun good rest h => paginate_partial good rest h⟩

/-- Witness for claim C8: a two-good-page fetch whose third page fails
returns the four items of the first two pages, for both endpoints. -/
theorem C8_witness :
    (∀ p ∈ [(⟨some [locW, locW2], some "t1"⟩ : PageOf DailyImpressions.Location),
            ⟨some [locW3], some "t2"⟩], p.nextPageToken ≠ none)
    ∧ DailyImpressions.get_all_locations
        ([(⟨some [locW, locW2], some "t1"⟩ : PageOf DailyImpressions.Location),
          ⟨some [locW3], some "t2"⟩].map Except.ok
          ++ Except.error () :: [.ok ⟨some [locW], none⟩])
        = [locW, locW2, locW3]
    ∧ (∀ p ∈ [(⟨some [kwRawW], some "t1"⟩ : PageOf KeywordsCollector.KWRaw)],
        p.nextPageToken ≠ none)
    ∧ KeywordsCollector.get_search_keywords
        ([(⟨some [kwRawW], some "t1"⟩ : PageOf KeywordsCollector.KWRaw)].map Except.ok
          ++ Except.error () :: [])
        = [kwRawW] := by
  have h1 : ∀ p ∈ [(⟨some [locW, locW2], some "t1"⟩ : PageOf DailyImpressions.Location),
      ⟨some [locW3], some "t2"⟩], p.nextPageToken ≠ none := by
    intro p hp
    rcases List.mem_cons.mp hp with rfl | hp
    · simp
    rcases List.mem_cons.mp hp with rfl | hp
    · simp
    cases hp
  have h2 : ∀ p ∈ [(⟨some [kwRawW], some "t1"⟩ : PageOf KeywordsCollector.KWRaw)],
      p.nextPageToken ≠ none := by
    intro p hp
    rcases List.mem_cons.mp hp with rfl | hp
    · simp
    cases hp
  refine ⟨h1, ?_, h2, ?_⟩
  · rw [C8_pagination_partial_failure.1 _ _ h1]
    rfl
  · rw [C8_pagination_partial_failure.2 _ _ h2]
    rfl

/-- Claim C9 (amended): on every successful run (code 200), the keywords
summary reports status success, rows written, total entities found and
the count of entities that yielded data; the impressions summary reports
status success, rows written, total entities found and the resolved
90-day date range ending 3 days before today - but no field of the
impressions summary reports the count of entities that yielded data. -/
theorem C9_run_summary_amended :
    (∀ (w : DailyImpressions.ImpWorld) (s : SummaryD) (c : Nat),
      DailyImpressions.impMain w = some (s, c) → c = 200 →
      alookup s "status" = some (.s "success")
      ∧ (∃ rows, DailyImpressions.impRowsOf w = some rows
          ∧ alookup s "records_written" = some (.n rows.length))
      ∧ alookup s "locations_processed"
          = some (.n (DailyImpressions.get_all_locations w.locPages).length)
      ∧ alookup s "date_range" = some (.d
          [("start", .s (isoDate (fromordinal
            (toordinal w.today.year w.today.month w.today.day - 93)))),
           ("end", .s (isoDate (fromordinal
            (toordinal w.today.year w.today.month w.today.day - 3))))]))
    ∧ (∀ (w : KeywordsCollector.KwWorld) (s : SummaryD) (c : Nat),
      KeywordsCollector.kwMain w = (s, c) → c = 200 →
      alookup s "status" = some (.s "success")
      ∧ alookup s "keywords_written" = some (.n
          (KeywordsCollector.transform_to_bigquery_rows w.collDate w.nowIso w.monthsBack
            ((paginate w.locPages).flatMap (KeywordsCollector.keywordsOf w))).length)
      ∧ alookup s "locations_processed" = some (.n (paginate w.locPages).length)
      ∧ alookup s "locations_with_data" = some (.n
          ((paginate w.locPages).filter
            (fun loc => !(KeywordsCollector.keywordsOf w loc).isEmpty)).length)) := by
  constructor
  · intro w s c h hc
    subst hc
    simp only [DailyImpressions.impMain] at h
    by_cases hz : (DailyImpressions.get_all_locations w.locPages).length = 0
    · rw [if_pos hz] at h
      injection h with h2
      obtain ⟨-, hcc⟩ := Prod.mk.inj h2
      exact absurd hcc (by decide)
    · rw [if_neg hz] at h
      cases hrows : DailyImpressions.impRowsOf w with
      | none => rw [hrows] at h; simp at h
      | some rows =>
        rw [hrows] at h
        simp only [Option.map_some'] at h
        injection h with h2
        obtain ⟨hs, -⟩ := Prod.mk.inj h2
        refine ⟨?_, ⟨rows, rfl, ?_⟩, ?_, ?_⟩ <;> rw [← hs] <;> rfl
  · intro w s c h hc
    subst hc
    simp only [KeywordsCollector.kwMain] at h
    by_cases hz : (paginate w.locPages).length = 0
    · rw [if_pos hz] at h
      obtain ⟨-, hcc⟩ := Prod.mk.inj h
      exact absurd hcc (by decide)
    · rw [if_neg hz] at h
      obtain ⟨hs, -⟩ := Prod.mk.inj h
      refine ⟨?_, ?_, ?_, ?_⟩ <;> rw [← hs] <;> rfl

/-- Counterexample for claim C9 as stated: on a successful impressions
run where exactly one of the three entities yielded data, no component of
the returned summary reports that count (every summary value differs from
1 both as a number and as a string), so the impressions summary does not
report the count of entities that yielded data. -/
theorem C9_counterexample_imp_summary_lacks_yield_count :
    DailyImpressions.impMain w9 = some (S9, 200)
    ∧ impYieldedCount w9 = 1
    ∧ (∀ kv ∈ S9, kv.2 ≠ SVal.n 1 ∧ kv.2 ≠ SVal.s "1") := by
  refine ⟨by rfl, by rfl, ?_⟩
  intro kv hkv
  simp only [S9] at hkv
  rcases List.mem_cons.mp hkv with rfl | hkv
  · exact ⟨by simp, by simp⟩
  rcases List.mem_cons.mp hkv with rfl | hkv
  · exact ⟨by simp, by simp⟩
  rcases List.mem_cons.mp hkv with rfl | hkv
  · exact ⟨by simp, by simp⟩
  rcases List.mem_cons.mp hkv with rfl | hkv
  · exact ⟨by simp, by simp⟩
  cases hkv

/-- Witness for claim C9 at concrete successful runs of both drivers. -/
theorem C9_witness :
    (DailyImpressions.impMain w9 = some (S9, 200)
    ∧ (alookup S9 "status" = some (.s "success")
      ∧ (∃ rows, DailyImpressions.impRowsOf w9 = some rows
          ∧ alookup S9 "records_written" = some (.n rows.length))
      ∧ alookup S9 "locations_processed"
          = some (.n (DailyImpressions.get_all_locations w9.locPages).length)
      ∧ alookup S9 "date_range" = some (.d
          [("start", .s (isoDate (fromordinal
            (toordinal w9.today.year w9.today.month w9.today.day - 93)))),
           ("end", .s (isoDate (fromordinal
            (toordinal w9.today.year w9.today.month w9.today.day - 3))))])))
    ∧ (KeywordsCollector.kwMain kwW9 = (Skw, 200)
    ∧ (alookup Skw "status" = some (.s "success")
      ∧ alookup Skw "keywords_written" = some (.n
          (KeywordsCollector.transform_to_bigquery_rows kwW9.collDate kwW9.nowIso
            kwW9.monthsBack
            ((paginate kwW9.locPages).flatMap (KeywordsCollector.keywordsOf kwW9))).length)
      ∧ alookup Skw "locations_processed" = some (.n (paginate kwW9.locPages).length)
      ∧ alookup Skw "locations_with_data" = some (.n
          ((paginate kwW9.locPages).filter
            (fun loc => !(KeywordsCollector.keywordsOf kwW9 loc).isEmpty)).length))) :=
  ⟨⟨by rfl, C9_run_summary_amended.1 w9 S9 200 (by rfl) rfl⟩,
   ⟨by rfl, C9_run_summary_amended.2 kwW9 Skw 200 (by rfl) rfl⟩⟩
